import Mathlib

/-
  Verification of the synchronized cache and notification layer of the
  chatbot_2 repository (cache.py, websocket_app.py, sequence_cache.py).

  The Python code is shallowly embedded: each method of SequenceCache and of
  WebSocketServer that the properties mention is translated into a pure Lean
  function over an explicit state type.  Python dictionaries and SQLite
  tables keyed by a primary key are modelled as association lists keyed by
  String; Python `str` primitives used by the code (strip, replace, split,
  startswith) are re-implemented structurally over `List Char` so that every
  definition evaluates inside the kernel.  A possibly failing persistent
  write is modelled by an explicit `dbFails` flag: when it is set the SQLite
  statements raise, which the `with sqlite3.connect(...)` context manager
  turns into a rolled-back transaction (the table is unchanged).
-/

set_option autoImplicit false

namespace Chatbot2

/-- Python whitespace set used by `str.strip()` with no argument:
space, tab, newline, carriage return, vertical tab, form feed. -/
def isPySpace (c : Char) : Bool :=
  c = ' ' || c = '\t' || c = '\n' || c = '\r' || c.toNat = 11 || c.toNat = 12

/-- Python `s.strip()`: remove leading and trailing whitespace. -/
def pyStrip (s : String) : String :=
  ⟨((s.data.dropWhile isPySpace).reverse.dropWhile isPySpace).reverse⟩

/-- Python `s.startswith(pre)`. -/
def pyStartsWith (s pre : String) : Bool :=
  pre.data.isPrefixOf s.data

/-- Python `s.replace(old, new)` on character lists: replace every
non-overlapping occurrence of `pat` by `rep`, scanning left to right.
The extra `fuel` argument makes the recursion structural (each step
consumes at least one character, so `cs.length` is always enough fuel);
it has no semantic content. -/
def pyReplaceListAux (pat rep : List Char) : Nat → List Char → List Char
  | _, [] => []
  | 0, cs => cs
  | fuel + 1, c :: rest =>
      if pat ≠ [] ∧ pat.isPrefixOf (c :: rest) then
        rep ++ pyReplaceListAux pat rep fuel ((c :: rest).drop pat.length)
      else
        c :: pyReplaceListAux pat rep fuel rest

/-- Python `s.replace(old, new)`. -/
def pyReplace (s pat rep : String) : String :=
  ⟨pyReplaceListAux pat.data rep.data s.data.length s.data⟩

/-- Python `s.split(sep)` for a one-character separator; keeps empty pieces,
and the split of the empty string is `[""]`, as in Python. -/
def splitOnChar (sep : Char) (cs : List Char) : List (List Char) :=
  match cs with
  | [] => [[]]
  | c :: rest =>
      let r := splitOnChar sep rest
      if c = sep then [] :: r
      else
        match r with
        | [] => [[c]]
        | h :: t => (c :: h) :: t

/-- Python `s.split(sep)` for a one-character separator, on strings. -/
def pySplit (s : String) (sep : Char) : List String :=
  (splitOnChar sep s.data).map (fun cs => ⟨cs⟩)

/- ### Association lists: Python dict / SQLite table keyed by a primary key -/

/-- Lookup by key; Python dict indexing / `SELECT ... WHERE sequence_id = ?`. -/
def assocLookup {α : Type} (l : List (String × α)) (k : String) : Option α :=
  (l.find? (fun p => p.1 = k)).map Prod.snd

/-- Key-membership test; Python `k in d` / `rowcount > 0` of a keyed UPDATE. -/
def assocHas {α : Type} (l : List (String × α)) (k : String) : Bool :=
  l.any (fun p => p.1 = k)

/-- Insert-or-replace by key; Python `d[k] = v` and SQLite
`INSERT OR REPLACE` on the primary key: an existing key keeps its
position and gets the new value, a new key is appended at the end.
Keys are unique in every state the code builds (dict keys / a primary
key column), so replacing the first occurrence is exact. -/
def assocSet {α : Type} : List (String × α) → String → α → List (String × α)
  | [], k, v => [(k, v)]
  | p :: rest, k, v =>
      if p.1 = k then (k, v) :: rest else p :: assocSet rest k v

/-- Update-in-place by key; SQLite `UPDATE ... WHERE sequence_id = ?`
(no row is created when the key is absent). -/
def assocUpdate {α : Type} (l : List (String × α)) (k : String) (f : α → α) :
    List (String × α) :=
  l.map (fun p => if p.1 = k then (p.1, f p.2) else p)

/-- Removal by key; Python `del d[k]`. -/
def assocRemove {α : Type} (l : List (String × α)) (k : String) :
    List (String × α) :=
  l.filter (fun p => ¬ p.1 = k)

/- ### Data model of cache.py (class SequenceCache) -/

/-- An opaque JSON-serializable Python dict, as passed for `sequence_data`.
Keys are strings; the values are opaque to every operation of the cache
except the key-wise merge performed by `dict.update`, so they are modelled
as their serialized text. -/
abbrev PyDict := List (String × String)

/-- Python `d[k] = v` on a dict: replace the value of an existing key in
place, otherwise append the new key; `dict.update` assigns key by key. -/
def dictSet (d : PyDict) (k v : String) : PyDict :=
  assocSet d k v

/-- cache.py line 15: base of the generated `rnacentral_link`. -/
def RNACENTRAL_BASE_URL : String := "https://rnacentral.org/rna/"

/-- cache.py line 242: the tool names accepted by `update_tool_data`. -/
def allowed_tools : List String := ["trnascan_se_ss", "sprinzl_pos", "blocks_file"]

/-- The parsed Sprinzl value stored in the `sprinzl_pos` column: the JSON
object with the single key `positions` (cache.py lines 226-228). -/
structure SprinzlPositions where
  positions : String
deriving DecidableEq, Repr

/-- One row of the `sequences` table (cache.py lines 73-86), minus the
`created_at` timestamp which no modelled operation reads.  Serialized
columns are held structured: `sequence_data` holds the JSON document,
`trnascan_se_ss` the raw annotation string that the code JSON-encodes,
`sprinzl_pos` the parsed positions object. -/
structure Row where
  sequence_data : PyDict
  num_locations : Nat
  locations : List String
  friendly_name : Option String
  rnacentral_link : String
  trnascan_se_ss : Option String
  sprinzl_pos : Option SprinzlPositions
  blocks_file : Option String
deriving DecidableEq, Repr

/-- The state of one `SequenceCache` object together with its SQLite file:
`memory_cache` is the `_memory_cache` dict, `db_table` the `sequences`
table keyed by `sequence_id`, `id_mapping` the `_id_mapping` dict
(locations list and friendly name per id), and the two flags record
whether `set_update_callback` / `set_event_loop` have been called. -/
structure CacheState where
  memory_cache : List (String × PyDict)
  db_table : List (String × Row)
  id_mapping : List (String × (List String × String))
  callback_set : Bool
  loop_set : Bool
deriving DecidableEq, Repr

/-- A Python exception escaping a modelled call. -/
inductive PyError where
  | typeError
  | valueError
  | storeError
deriving DecidableEq, Repr

/-- The `UpdateType` literal of cache.py line 12. -/
inductive UpdateType where
  | update
  | clear
deriving DecidableEq, Repr

/-- The outcome of one mutating call: the state afterwards, the exception
that escaped to the caller (if any), the returned boolean (if the method
returns one), and the notifications handed to the update callback, in
order. -/
structure OpResult where
  state : CacheState
  raised : Option PyError
  retVal : Option Bool
  notifs : List (Option String × UpdateType)
deriving DecidableEq, Repr

/-- Construction (cache.py lines 17-31): the memory cache starts empty, the
`sequences` table is created with CREATE TABLE IF NOT EXISTS, so rows
already in the database file survive; nothing loads them into the memory
cache.  Callback and loop are unset until the server installs them. -/
def init_cache (existing_db : List (String × Row))
    (id_mapping : List (String × (List String × String))) : CacheState :=
  { memory_cache := []
    db_table := existing_db
    id_mapping := id_mapping
    callback_set := false
    loop_set := false }

/- ### Operations of cache.py -/

/-- `add_sequence` (cache.py lines 94-155).  The memory cache is written
first (line 107); then the row is written with INSERT OR REPLACE and
committed (lines 110-126) — replacing a row resets the tool columns to
NULL, since the statement names only the six base columns; finally, if
both a callback and a loop are installed, one `update` notification for
the id is scheduled (lines 128-145).  `dbFails` models the SQLite write
raising: the exception propagates to the caller (there is no handler), so
the callback block is never reached, and the memory-cache write is left in
place — nothing rolls it back. -/
def add_sequence (dbFails : Bool) (st : CacheState) (sequence_id : String)
    (sequence_data : PyDict) : OpResult :=
  let mapping := assocLookup st.id_mapping sequence_id
  let locations := (mapping.map Prod.fst).getD []
  let friendly_name := mapping.map Prod.snd
  let rnacentral_link := RNACENTRAL_BASE_URL ++ sequence_id
  let mem2 := assocSet st.memory_cache sequence_id sequence_data
  if dbFails then
    { state := { st with memory_cache := mem2 }
      raised := some PyError.storeError
      retVal := none
      notifs := [] }
  else
    let row : Row :=
      { sequence_data := sequence_data
        num_locations := locations.length
        locations := locations
        friendly_name := friendly_name
        rnacentral_link := rnacentral_link
        trnascan_se_ss := none
        sprinzl_pos := none
        blocks_file := none }
    { state := { st with
        memory_cache := mem2
        db_table := assocSet st.db_table sequence_id row }
      raised := none
      retVal := none
      notifs :=
        if st.callback_set && st.loop_set then [(some sequence_id, UpdateType.update)]
        else [] }

/-- `get_by_rnacentral_id` (cache.py lines 157-183): a single SELECT on the
`sequences` table by primary key; the memory cache is neither consulted
nor written.  The row tuple is assembled into the returned dict (with the
tool columns grouped under `tool_data`); the Lean model returns the row
itself, since the assembly is a bijective re-packaging of its fields.
Returns `none`, not an error, when no row exists.  The state is returned
so the (absent) mutation of the memory cache is visible. -/
def get_by_rnacentral_id (st : CacheState) (sequence_id : String) :
    Option Row × CacheState :=
  (assocLookup st.db_table sequence_id, st)

/-- The result of `_parse_trnascan_output` when both lines were found. -/
structure TrnascanParsed where
  trnascan_sequence : String
  secondary_structure : String
deriving DecidableEq, Repr

/-- `_parse_trnascan_output` (cache.py lines 185-212): strip the raw output,
split into lines, take the text of the last line starting with `Seq: `
(marker removed, stripped) and of the last line starting with `Str: ` or
with `>>` (the `Str: ` marker removed wherever it occurs, stripped);
return both, or `none` unless both were found.  No str operation used can
raise, so the except branch is unreachable for string input. -/
def parse_trnascan_output (trnascan_output : String) : Option TrnascanParsed :=
  let lines := pySplit (pyStrip trnascan_output) '\n'
  let step : Option String × Option String → String → Option String × Option String :=
    fun acc line =>
      if pyStartsWith line "Seq: " then
        (some (pyStrip (pyReplace line "Seq: " "")), acc.2)
      else if pyStartsWith line "Str: " || pyStartsWith line ">>" then
        (acc.1, some (pyStrip (pyReplace line "Str: " "")))
      else acc
  match lines.foldl step (none, none) with
  | (some s, some ss) => some { trnascan_sequence := s, secondary_structure := ss }
  | _ => none

/-- `_parse_sprinzl_output` (cache.py lines 214-228): strip the raw output,
delete every newline and carriage return, and wrap the result as the
`positions` field; this never fails, whatever the input. -/
def parse_sprinzl_output (sprinzl_output : String) : SprinzlPositions :=
  { positions := ⟨(pyStrip sprinzl_output).data.filter (fun c => !(c = '\n' || c = '\r'))⟩ }

/-- `update_tool_data` (cache.py lines 230-326).  An unknown tool name
raises ValueError before the try block (lines 242-244), so it escapes to
the caller.  Otherwise, inside try: for `trnascan_se_ss`, the annotation
is parsed; on success the base payload is SELECTed and, if the row exists,
one UPDATE writes the merged payload (keys `secondary_structure` and
`trnascan_sequence`) and the raw slot value together; for `sprinzl_pos`
and `blocks_file` one keyed UPDATE writes the slot, succeeding iff the row
exists (`rowcount > 0`).  After `conn.commit()`, one `update` notification
is scheduled iff the update succeeded and callback and loop are installed.
`dbFails` models a SQLite error: the except branch returns False and the
connection context manager rolls the transaction back, so the state is
unchanged and nothing is notified. -/
def update_tool_data (dbFails : Bool) (st : CacheState)
    (rnacentral_id tool_name data : String) : OpResult :=
  if tool_name ∈ allowed_tools then
    if dbFails then
      { state := st, raised := none, retVal := some false, notifs := [] }
    else
      let res : Bool × List (String × Row) :=
        if tool_name = "trnascan_se_ss" then
          match parse_trnascan_output data with
          | some parsed =>
            match assocLookup st.db_table rnacentral_id with
            | some _ =>
              (true, assocUpdate st.db_table rnacentral_id (fun row =>
                { row with
                  sequence_data :=
                    dictSet (dictSet row.sequence_data
                        "secondary_structure" parsed.secondary_structure)
                      "trnascan_sequence" parsed.trnascan_sequence
                  trnascan_se_ss := some data }))
            | none => (false, st.db_table)
          | none => (false, st.db_table)
        else if tool_name = "sprinzl_pos" then
          (assocHas st.db_table rnacentral_id,
           assocUpdate st.db_table rnacentral_id (fun row =>
             { row with sprinzl_pos := some (parse_sprinzl_output data) }))
        else
          (assocHas st.db_table rnacentral_id,
           assocUpdate st.db_table rnacentral_id (fun row =>
             { row with blocks_file := some data }))
      { state := { st with db_table := res.2 }
        raised := none
        retVal := some res.1
        notifs :=
          if res.1 && st.callback_set && st.loop_set then
            [(some rnacentral_id, UpdateType.update)]
          else [] }
  else
    { state := st, raised := some PyError.valueError, retVal := none, notifs := [] }

/-- `clear` — the second, effective definition (cache.py lines 369-379; it
shadows the identical-in-effect first definition at lines 329-339).  Both
stores are emptied and the deletion committed; then, when a callback is
installed, the code evaluates `self.db_update_callback(update_type='clear')`.
The installed callback is `WebSocketServer.handle_db_update(sequence_id,
update_type)` whose first positional parameter has no default, so that
call raises TypeError before any coroutine exists: the exception escapes
`clear`, and no notification is ever produced.  (The shadowed first
definition passed `(None, 'clear')` instead.)  Without a callback the call
returns normally. -/
def clear_op (st : CacheState) : OpResult :=
  let st2 := { st with memory_cache := [], db_table := [] }
  if st.callback_set then
    { state := st2, raised := some PyError.typeError, retVal := none, notifs := [] }
  else
    { state := st2, raised := none, retVal := none, notifs := [] }

/-- The value returned by `get_cache_size` (cache.py lines 355-360). -/
structure CacheSizeInfo where
  memory_entries : Nat
  persistent_entries : Nat
deriving DecidableEq, Repr

/-- `get_cache_size` (cache.py lines 355-367): the length of the memory
dict and SELECT COUNT of the `sequences` table. -/
def get_cache_size (st : CacheState) : CacheSizeInfo :=
  { memory_entries := st.memory_cache.length
    persistent_entries := st.db_table.length }

/- ### The legacy variant sequence_cache.py -/

/-- The state of the legacy `SequenceCache` of sequence_cache.py: a memory
dict and a two-column table, both mapping ids to payload documents. -/
structure LegacyCacheState where
  memory_cache : List (String × PyDict)
  db_table : List (String × PyDict)
deriving DecidableEq, Repr

/-- `get_sequence` (sequence_cache.py lines 53-74): the memory cache is
consulted first; on a miss the table is consulted and a found payload is
written back into the memory cache before being returned; `none` when
both miss. -/
def get_sequence (st : LegacyCacheState) (sequence_id : String) :
    Option PyDict × LegacyCacheState :=
  match assocLookup st.memory_cache sequence_id with
  | some d => (some d, st)
  | none =>
    match assocLookup st.db_table sequence_id with
    | some d =>
      (some d, { st with memory_cache := assocSet st.memory_cache sequence_id d })
    | none => (none, st)

/- ### Authentication subsystem of websocket_app.py -/

/-- websocket_app.py line 30: `AuthenticationError.MAX_ATTEMPTS`. -/
def MAX_ATTEMPTS : Nat := 5

/-- The token TTL (websocket_app.py line 63): 24 hours, in abstract clock
units of one hour. -/
def TOKEN_TTL : Nat := 24

/-- Deterministic model of
`hmac.new(key.encode(), msg.encode(), hashlib.sha256).hexdigest()`
(an external library call): the proofs use only that the digest is a
deterministic function of key and message. -/
def hmac_sha256 (key msg : String) : String :=
  "hmac-sha256:" ++ key ++ ":" ++ msg

/-- Model of `hmac.compare_digest`: equality (the constant-time aspect has
no functional content). -/
def hmac_compare_digest (a b : String) : Bool :=
  a = b

/-- The per-token record kept in `active_tokens` (websocket_app.py lines
69-72): expiration instant and stored signature. -/
structure TokenData where
  expiration : Nat
  signature : String
deriving DecidableEq, Repr

/-- The process-wide authentication state: the server fields `SECRET_KEY`,
`PASSWORD` (possibly absent, since it comes from the environment) and
`active_tokens`, the class counter
`AuthenticationError.incorrect_password_attempts`, and whether the
process killed itself (`os.kill` + `sys.exit` on reaching the
threshold, websocket_app.py lines 36-39). -/
structure AuthState where
  secret_key : String
  server_password : Option String
  incorrect_password_attempts : Nat
  terminated : Bool
  active_tokens : List (String × TokenData)
deriving DecidableEq, Repr

/-- `generate_token` (websocket_app.py lines 60-73).  The random
`secrets.token_hex(32)` value is passed in as `token`; the current time as
`now`.  The signature over the token value is stored with the expiration
`now + 24h`. -/
def generate_token (st : AuthState) (token : String) (now : Nat) :
    String × AuthState :=
  let signature := hmac_sha256 st.secret_key token
  let tokens2 := assocSet st.active_tokens token (TokenData.mk (now + TOKEN_TTL) signature)
  (token, { st with active_tokens := tokens2 })

/-- `verify_token` (websocket_app.py lines 75-90): unknown tokens are
rejected; expired tokens are deleted and rejected; otherwise the stored
signature is compared against a freshly computed one. -/
def verify_token (st : AuthState) (token : String) (now : Nat) :
    Bool × AuthState :=
  match assocLookup st.active_tokens token with
  | none => (false, st)
  | some td =>
    if now > td.expiration then
      (false, { st with active_tokens := assocRemove st.active_tokens token })
    else
      (hmac_compare_digest td.signature (hmac_sha256 st.secret_key token), st)

/-- `authenticate` (websocket_app.py lines 92-98) together with the
`AuthenticationError` constructor (lines 28-39): on a password match a
token is generated and returned; on a mismatch the constructor increments
the class-wide counter and, when it reaches `MAX_ATTEMPTS`, terminates
the process.  (The successful branch never touches the counter: it is
cumulative, not reset on success.) -/
def authenticate (st : AuthState) (password : String) (newToken : String)
    (now : Nat) : Option String × AuthState :=
  if st.server_password = some password then
    let r := generate_token st newToken now
    (some r.1, r.2)
  else
    let n := st.incorrect_password_attempts + 1
    (none,
     { st with
        incorrect_password_attempts := n
        terminated := st.terminated || decide (MAX_ATTEMPTS ≤ n) })

/- ### Broadcast fan-out of websocket_app.py -/

/-- One connected session for the fan-out model: an identifier and whether
`websocket.send` raises on it (for example a half-closed socket). -/
structure Client where
  cid : Nat
  faulty : Bool
deriving DecidableEq, Repr

/-- The deliveries a fan-out produces: every non-faulty client receives the
message.  In both `asyncio.gather` modes all sends are started before any
is awaited, and a failing sibling is not cancelled (with
`return_exceptions=True` failures are returned in the result list; without
it the first failure is re-raised by `gather` while the remaining send
tasks still run to completion), so the healthy sessions receive the
message in every mode. -/
def healthy_deliveries (clients : List Client) (msg : String) :
    List (Nat × String) :=
  (clients.filter (fun c => !c.faulty)).map (fun c => (c.cid, msg))

/-- The outcome of one broadcast routine: the (client id, message kind)
deliveries that completed, and the exception (identified by the faulty
client id) escaping the routine, if any. -/
structure BroadcastResult where
  delivered : List (Nat × String)
  raisedOut : Option Nat
deriving DecidableEq, Repr

/-- The `update` branch of `handle_db_update` (websocket_app.py lines
178-205): when the record lookup found data and clients are connected,
`db_update` is sent to every client with
`asyncio.gather(..., return_exceptions=True)` — per-session failures are
returned inside the result list, so nothing raises and the surrounding
try block is exited normally. -/
def handle_db_update_record (clients : List Client) (dataFound : Bool) :
    BroadcastResult :=
  if dataFound then
    { delivered := healthy_deliveries clients "db_update", raisedOut := none }
  else
    { delivered := [], raisedOut := none }

/-- `broadcast_db_update` (websocket_app.py lines 272-295): nothing is sent
without clients or without data; otherwise `asyncio.gather` without
`return_exceptions` re-raises the first send failure, which the enclosing
try/except catches and logs — nothing escapes, and the healthy sessions
were already sent to. -/
def broadcast_db_update (clients : List Client) (dataFound : Bool) :
    BroadcastResult :=
  if clients = [] then { delivered := [], raisedOut := none }
  else if dataFound then
    { delivered := healthy_deliveries clients "db_update", raisedOut := none }
  else { delivered := [], raisedOut := none }

/-- `broadcast_db_clear` (websocket_app.py lines 297-308): `db_clear` is
sent to every client with `asyncio.gather` without `return_exceptions`
and with no try/except — the first faulty client's exception escapes the
routine (the healthy sends still complete). -/
def broadcast_db_clear (clients : List Client) : BroadcastResult :=
  { delivered := healthy_deliveries clients "db_clear"
    raisedOut := (clients.find? (fun c => c.faulty)).map (fun c => c.cid) }

/-- `broadcast_full_state` (websocket_app.py lines 264-270) sends the full
snapshot to each client in turn through `send_db_state`, whose body is
wrapped in try/except (lines 231-262): a failing send is logged and the
loop continues, so every healthy client receives `db_state` and nothing
escapes. -/
def broadcast_full_state (clients : List Client) : BroadcastResult :=
  { delivered := healthy_deliveries clients "db_state", raisedOut := none }

/-- The `clear` branch of `handle_db_update` (websocket_app.py lines
207-216): `broadcast_db_clear` then `broadcast_full_state`; an exception
escaping the former is caught by the enclosing except block, logged, and
re-raised (line 216), skipping the full-state push entirely. -/
def handle_db_update_clear (clients : List Client) : BroadcastResult :=
  let r1 := broadcast_db_clear clients
  match r1.raisedOut with
  | some e => { delivered := r1.delivered, raisedOut := some e }
  | none =>
    { delivered := r1.delivered ++ (broadcast_full_state clients).delivered
      raisedOut := none }

/- ### Operation sequences over one cache -/

/-- One completed mutation of the Record Store, as in §8 of the design:
an upsert, a tool-slot update, or a clear.  A mutation whose persistent
write raises aborts the sequence, so completed sequences run with
`dbFails = false`; `clear` aborts after emptying both stores, so its
state effect still belongs here. -/
inductive CacheOp where
  | upsert (id : String) (data : PyDict)
  | updateSlot (id tool_name data : String)
  | clearAll
deriving DecidableEq, Repr

/-- The state left by one completed operation. -/
def apply_op (st : CacheState) : CacheOp → CacheState
  | CacheOp.upsert id data => (add_sequence false st id data).state
  | CacheOp.updateSlot id tool data => (update_tool_data false st id tool data).state
  | CacheOp.clearAll => (clear_op st).state

/-- The state left by a sequence of completed operations. -/
def apply_ops (ops : List CacheOp) (st : CacheState) : CacheState :=
  ops.foldl apply_op st

/- ### Concrete fixtures for witnesses and counterexamples -/

/-- A sample payload document. -/
def sampleData : PyDict := [("sequence", "ACGT")]

/-- The row `add_sequence` writes for id `X` when the id mapping has no
entry for it. -/
def sampleRow : Row :=
  { sequence_data := sampleData
    num_locations := 0
    locations := []
    friendly_name := none
    rnacentral_link := "https://rnacentral.org/rna/X"
    trnascan_se_ss := none
    sprinzl_pos := none
    blocks_file := none }

/-- A server-configured cache: update callback and event loop installed (as
`WebSocketServer.__init__` does) and one record stored under id `X`;
reached from `init_cache [] []` by installing both and running
`add_sequence false _ "X" sampleData`. -/
def serverState : CacheState :=
  { memory_cache := [("X", sampleData)]
    db_table := [("X", sampleRow)]
    id_mapping := []
    callback_set := true
    loop_set := true }

/-- The authentication state at server start: secret key and password
configured, counter zero, no tokens. -/
def freshAuth : AuthState :=
  { secret_key := "k"
    server_password := some "pw"
    incorrect_password_attempts := 0
    terminated := false
    active_tokens := [] }

/-- One failed `authenticate` call (wrong password) against `freshAuth`
configuration; token argument and clock are irrelevant on this path. -/
def failOnce (st : AuthState) : AuthState :=
  (authenticate st "wrong" "t" 0).2

/- ### Helper lemmas about the association-list primitives -/

theorem assocLookup_cons {α : Type} (p : String × α) (l : List (String × α))
    (k : String) :
    assocLookup (p :: l) k = if p.1 = k then some p.2 else assocLookup l k := by
  by_cases h : p.1 = k <;> simp [assocLookup, List.find?, h]

theorem assocHas_cons {α : Type} (p : String × α) (l : List (String × α))
    (k : String) :
    assocHas (p :: l) k = (p.1 = k || assocHas l k) := by
  simp [assocHas]

theorem assocLookup_assocSet_self {α : Type} (l : List (String × α))
    (k : String) (v : α) :
    assocLookup (assocSet l k v) k = some v := by
  induction l with
  | nil => simp [assocSet, assocLookup_cons]
  | cons p rest ih =>
    by_cases h : p.1 = k <;> simp [assocSet, h, assocLookup_cons, ih]

theorem map_fst_assocSet {α : Type} (l : List (String × α)) (k : String)
    (v : α) :
    (assocSet l k v).map Prod.fst =
      if assocHas l k then l.map Prod.fst else l.map Prod.fst ++ [k] := by
  induction l with
  | nil => simp [assocSet, assocHas]
  | cons p rest ih =>
    by_cases h : p.1 = k <;> simp [assocSet, h, assocHas_cons, ih] <;>
      split <;> rfl

theorem map_fst_assocUpdate {α : Type} (l : List (String × α)) (k : String)
    (f : α → α) :
    (assocUpdate l k f).map Prod.fst = l.map Prod.fst := by
  induction l with
  | nil => rfl
  | cons p rest ih =>
    by_cases h : p.1 = k <;> simp [assocUpdate, h] <;>
      simpa [assocUpdate] using ih

theorem assocLookup_assocUpdate_self {α : Type} (l : List (String × α))
    (k : String) (f : α → α) :
    assocLookup (assocUpdate l k f) k = (assocLookup l k).map f := by
  induction l with
  | nil => rfl
  | cons p rest ih =>
    by_cases h : p.1 = k <;>
      simp [assocUpdate, h, assocLookup_cons] <;>
      simpa [assocUpdate] using ih

theorem assocHas_eq_false_of_lookup_none {α : Type} {l : List (String × α)}
    {k : String} (h : assocLookup l k = none) : assocHas l k = false := by
  induction l with
  | nil => rfl
  | cons p rest ih =>
    rw [assocLookup_cons] at h
    by_cases h1 : p.1 = k
    · simp [h1] at h
    · simp [assocHas_cons, h1]
      exact Bool.not_eq_true _ ▸ (by simpa using ih (by simpa [h1] using h))

theorem assocHas_of_lookup_some {α : Type} {l : List (String × α)}
    {k : String} {v : α} (h : assocLookup l k = some v) :
    assocHas l k = true := by
  induction l with
  | nil => simp [assocLookup] at h
  | cons p rest ih =>
    rw [assocLookup_cons] at h
    by_cases h1 : p.1 = k
    · simp [assocHas_cons, h1]
    · simp [assocHas_cons, h1]
      exact ih (by simpa [h1] using h)

theorem assocUpdate_of_not_has {α : Type} {l : List (String × α)}
    {k : String} (f : α → α) (h : assocHas l k = false) :
    assocUpdate l k f = l := by
  induction l with
  | nil => rfl
  | cons p rest ih =>
    rw [assocHas_cons] at h
    have h1 : ¬ p.1 = k := by
      intro hk; simp [hk] at h
    simp [assocUpdate, h1]
    simpa [assocUpdate] using ih (by simpa [h1] using h)

theorem assocLookup_eq_none_iff_not_has {α : Type} (l : List (String × α))
    (k : String) :
    assocLookup l k = none ↔ assocHas l k = false := by
  constructor
  · exact assocHas_eq_false_of_lookup_none
  · intro h
    induction l with
    | nil => rfl
    | cons p rest ih =>
      rw [assocHas_cons] at h
      have h1 : ¬ p.1 = k := by
        intro hk; simp [hk] at h
      rw [assocLookup_cons, if_neg h1]
      exact ih (by simpa [h1] using h)

theorem mem_healthy_deliveries {clients : List Client} {c : Client}
    (msg : String) (hm : c ∈ clients) (hf : c.faulty = false) :
    (c.cid, msg) ∈ healthy_deliveries clients msg := by
  unfold healthy_deliveries
  exact List.mem_map_of_mem _ (List.mem_filter.mpr ⟨hm, by simp [hf]⟩)

/- ### Claim theorems -/

/-- C1, counterexample.  Upsert is not all-or-nothing: starting from an
empty cache, an `add_sequence` whose persistent write fails leaves the new
record in the in-memory mirror while the persistent table has no row for
it — the mirror write is neither rolled back nor flagged, so the two
stores diverge. -/
theorem upsert_not_atomic_cex :
    assocLookup (add_sequence true (init_cache [] []) "X" sampleData).state.memory_cache "X" =
      some sampleData ∧
    assocLookup (add_sequence true (init_cache [] []) "X" sampleData).state.db_table "X" =
      none ∧
    (add_sequence true (init_cache [] []) "X" sampleData).raised = some PyError.storeError := by
  decide

/-- C1, amended.  `add_sequence` writes the mirror first; if the persistent
write then fails, the exception propagates to the caller and no
notification is sent, but the mirror retains the new record (it is not
rolled back), so the mirror can diverge from the persistent table.  When
the persistent write succeeds, both stores reflect the new record. -/
theorem upsert_mirror_not_rolled_back (st : CacheState) (id : String)
    (data : PyDict) :
    ((add_sequence true st id data).state.memory_cache = assocSet st.memory_cache id data ∧
     (add_sequence true st id data).state.db_table = st.db_table ∧
     (add_sequence true st id data).raised = some PyError.storeError ∧
     (add_sequence true st id data).notifs = []) ∧
    (assocLookup (add_sequence false st id data).state.memory_cache id = some data ∧
     (assocLookup (add_sequence false st id data).state.db_table id).map Row.sequence_data =
       some data ∧
     (add_sequence false st id data).raised = none) := by
  refine ⟨⟨rfl, rfl, rfl, rfl⟩, ?_, ?_, rfl⟩
  · simp [add_sequence, assocLookup_assocSet_self]
  · simp [add_sequence, assocLookup_assocSet_self]

/-- C3, evaluation at the failing input.  On a server-configured cache
(update callback installed), `clear` empties both stores, but then raises
TypeError — the effective `clear` definition calls the update callback
without its required `sequence_id` positional argument — so the call does
not succeed and no clear notification is ever produced (hence no
clear-notice or full-state push can follow).  Lookups after the clear do
return absent. -/
theorem clear_callback_type_error :
    (clear_op serverState).state.memory_cache = [] ∧
    (clear_op serverState).state.db_table = [] ∧
    (clear_op serverState).raised = some PyError.typeError ∧
    (clear_op serverState).notifs = [] ∧
    (get_by_rnacentral_id (clear_op serverState).state "X").1 = none := by
  decide

/-- Helper: a tool-slot update that produced a notification returned
`some true` (its UPDATE succeeded). -/
theorem update_tool_data_notified_succeeded (b : Bool) (st : CacheState)
    (id tool v : String)
    (hb : (update_tool_data b st id tool v).notifs ≠ []) :
    (update_tool_data b st id tool v).retVal = some true := by
  rw [update_tool_data] at hb ⊢
  by_cases ht : tool ∈ allowed_tools
  · rw [if_pos ht] at hb ⊢
    cases b with
    | true => simp at hb
    | false =>
      simp only [Bool.false_eq_true, if_false] at hb ⊢
      by_cases hc :
          ((if tool = "trnascan_se_ss" then
              match parse_trnascan_output v with
              | some parsed =>
                match assocLookup st.db_table id with
                | some _ =>
                  (true, assocUpdate st.db_table id (fun row =>
                    { row with
                      sequence_data :=
                        dictSet (dictSet row.sequence_data
                            "secondary_structure" parsed.secondary_structure)
                          "trnascan_sequence" parsed.trnascan_sequence
                      trnascan_se_ss := some v }))
                | none => (false, st.db_table)
              | none => (false, st.db_table)
            else if tool = "sprinzl_pos" then
              (assocHas st.db_table id,
               assocUpdate st.db_table id (fun row =>
                 { row with sprinzl_pos := some (parse_sprinzl_output v) }))
            else
              (assocHas st.db_table id,
               assocUpdate st.db_table id (fun row =>
                 { row with blocks_file := some v }))).1
            && st.callback_set && st.loop_set) = true
      · have h1 := (Bool.and_eq_true _ _).mp hc
        have h2 := (Bool.and_eq_true _ _).mp h1.1
        simp only [h2.1]
      · simp only [hc, if_false] at hb
        exact absurd rfl hb
  · rw [if_neg ht] at hb
    exact absurd rfl hb

/-- C2.  Commit-before-notify: a mutation whose persistent write fails
produces zero notifications (for `add_sequence` the exception propagates
before the callback block; for `update_tool_data` the except branch
returns False), and whenever a mutation does produce a notification its
commit had completed: for `add_sequence` the committed row holds the new
payload, for `update_tool_data` the call reports success. -/
theorem commit_before_notify (st : CacheState) (id : String) (data : PyDict)
    (tool v : String) :
    (add_sequence true st id data).notifs = [] ∧
    (update_tool_data true st id tool v).notifs = [] ∧
    (∀ b, (add_sequence b st id data).notifs ≠ [] →
       b = false ∧
       (assocLookup (add_sequence b st id data).state.db_table id).map Row.sequence_data =
         some data) ∧
    (∀ b, (update_tool_data b st id tool v).notifs ≠ [] →
       (update_tool_data b st id tool v).retVal = some true) := by
  refine ⟨rfl, ?_, ?_, ?_⟩
  · rw [update_tool_data]
    split <;> rfl
  · intro b hb
    cases b with
    | true => exact absurd rfl hb
    | false =>
      exact ⟨rfl, by simp [add_sequence, assocLookup_assocSet_self]⟩
  · intro b hb
    exact update_tool_data_notified_succeeded b st id tool v hb

/-- C2, witness: on the server-configured one-record cache, a failed upsert
notifies nobody, and a successful `blocks_file` update that did notify
reported success. -/
theorem commit_before_notify_witness :
    (add_sequence true serverState "X" sampleData).notifs = [] ∧
    (update_tool_data false serverState "X" "blocks_file" "BLK").retVal = some true := by
  refine ⟨(commit_before_notify serverState "X" sampleData "blocks_file" "BLK").1, ?_⟩
  exact (commit_before_notify serverState "X" sampleData "blocks_file" "BLK").2.2.2
    false (by decide)

/-- C4, counterexample.  For the clear fan-out the claim fails: with one
faulty and one healthy session, `broadcast_db_clear` uses gather without
`return_exceptions` and no try/except, so the faulty session's send error
escapes `handle_db_update` (which re-raises it), and the follow-up
full-state push is skipped — the healthy session receives the clear
notice but never the `db_state` message. -/
theorem broadcast_clear_propagates_cex :
    (handle_db_update_clear [Client.mk 0 true, Client.mk 1 false]).raisedOut = some 0 ∧
    (1, "db_clear") ∈ (handle_db_update_clear [Client.mk 0 true, Client.mk 1 false]).delivered ∧
    ¬ (1, "db_state") ∈ (handle_db_update_clear [Client.mk 0 true, Client.mk 1 false]).delivered := by
  decide

/-- C4, amended.  For the record-update fan-out the isolation holds: in
both `handle_db_update` (gather with `return_exceptions=True`: failures
collected) and `broadcast_db_update` (first failure caught and logged by
the enclosing try/except), every healthy session receives the
`db_update` message and no exception escapes the routine, whatever the
other sessions do.  For the clear fan-out, every healthy session still
receives the clear notice, but a send failure escapes
`handle_db_update`, which skips the full-state push. -/
theorem broadcast_isolation_record_update (clients : List Client) (c : Client)
    (hm : c ∈ clients) (hf : c.faulty = false) :
    (handle_db_update_record clients true).raisedOut = none ∧
    (c.cid, "db_update") ∈ (handle_db_update_record clients true).delivered ∧
    (broadcast_db_update clients true).raisedOut = none ∧
    (c.cid, "db_update") ∈ (broadcast_db_update clients true).delivered ∧
    (c.cid, "db_clear") ∈ (handle_db_update_clear clients).delivered := by
  have hne : clients ≠ [] := List.ne_nil_of_mem hm
  refine ⟨rfl, ?_, ?_, ?_, ?_⟩
  · exact mem_healthy_deliveries _ hm hf
  · simp [broadcast_db_update, hne]
  · simpa [broadcast_db_update, hne] using mem_healthy_deliveries "db_update" hm hf
  · rw [handle_db_update_clear]
    cases hcl : (broadcast_db_clear clients).raisedOut with
    | none =>
      simp only
      exact List.mem_append_left _ (mem_healthy_deliveries _ hm hf)
    | some e =>
      simp only
      exact mem_healthy_deliveries _ hm hf

/-- C4, witness: one faulty and one healthy mock connection; the healthy
one receives the record update through both routines with nothing
escaping, and receives the clear notice. -/
theorem broadcast_isolation_record_update_witness :
    (handle_db_update_record [Client.mk 7 true, Client.mk 8 false] true).raisedOut = none ∧
    (8, "db_update") ∈
      (handle_db_update_record [Client.mk 7 true, Client.mk 8 false] true).delivered ∧
    (broadcast_db_update [Client.mk 7 true, Client.mk 8 false] true).raisedOut = none ∧
    (8, "db_update") ∈
      (broadcast_db_update [Client.mk 7 true, Client.mk 8 false] true).delivered ∧
    (8, "db_clear") ∈
      (handle_db_update_clear [Client.mk 7 true, Client.mk 8 false]).delivered := by
  exact broadcast_isolation_record_update [Client.mk 7 true, Client.mk 8 false]
    (Client.mk 8 false) (by decide) (by decide)

/-- C5.  Auth lockout policy: from a fresh state, four consecutive failed
`authenticate` calls leave the process alive, the fifth terminates it;
and four failures followed by one successful call do not terminate the
process and yield a token that `verify_token` subsequently accepts
(checked one clock unit later, well inside the 24-hour TTL). -/
theorem auth_lockout_policy :
    (failOnce (failOnce (failOnce (failOnce freshAuth)))).terminated = false ∧
    (failOnce (failOnce (failOnce (failOnce (failOnce freshAuth))))).terminated = true ∧
    (authenticate (failOnce (failOnce (failOnce (failOnce freshAuth)))) "pw" "tok" 0).1 =
      some "tok" ∧
    (authenticate (failOnce (failOnce (failOnce (failOnce freshAuth)))) "pw" "tok" 0).2.terminated =
      false ∧
    (verify_token
      (authenticate (failOnce (failOnce (failOnce (failOnce freshAuth)))) "pw" "tok" 0).2
      "tok" 1).1 = true := by
  decide

/-- C6, counterexample.  `update_tool_data` with an unknown slot name does
not return False: the check at cache.py lines 242-244 sits before the try
block and raises ValueError to the caller (no boolean is returned); the
record is left unchanged. -/
theorem unknown_slot_raises_cex :
    (update_tool_data false serverState "X" "bogus" "v").raised = some PyError.valueError ∧
    (update_tool_data false serverState "X" "bogus" "v").retVal = none ∧
    (update_tool_data false serverState "X" "bogus" "v").state = serverState := by
  decide

/-- C6, amended.  A slot name outside the fixed set makes `update_tool_data`
raise ValueError to the caller (the process itself does not crash), with
no change to any record and no notification; an unknown id with a valid
slot name returns False and leaves the state unchanged. -/
theorem unknown_slot_update_behavior (st : CacheState) (id tool data : String) :
    (tool ∉ allowed_tools →
       update_tool_data false st id tool data =
         { state := st, raised := some PyError.valueError, retVal := none, notifs := [] }) ∧
    (tool ∈ allowed_tools → assocLookup st.db_table id = none →
       (update_tool_data false st id tool data).retVal = some false ∧
       (update_tool_data false st id tool data).state = st ∧
       (update_tool_data false st id tool data).raised = none ∧
       (update_tool_data false st id tool data).notifs = []) := by
  constructor
  · intro ht
    rw [update_tool_data, if_neg ht]
  · intro ht hlook
    have hhas : assocHas st.db_table id = false :=
      assocHas_eq_false_of_lookup_none hlook
    have ht3 : tool = "trnascan_se_ss" ∨ tool = "sprinzl_pos" ∨ tool = "blocks_file" := by
      simpa [allowed_tools] using ht
    rcases ht3 with h | h | h
    · subst h
      cases hp : parse_trnascan_output data with
      | none => simp [update_tool_data, allowed_tools, hp]
      | some parsed => simp [update_tool_data, allowed_tools, hp, hlook]
    · subst h
      simp [update_tool_data, allowed_tools, hhas, assocUpdate_of_not_has _ hhas]
    · subst h
      simp [update_tool_data, allowed_tools, hhas, assocUpdate_of_not_has _ hhas]

/-- C6, witness: a bogus slot name on the stored record raises ValueError
with untouched state; a valid slot name on an unknown id returns False. -/
theorem unknown_slot_update_behavior_witness :
    update_tool_data false serverState "X" "bogus" "v" =
      { state := serverState, raised := some PyError.valueError, retVal := none,
        notifs := [] } ∧
    (update_tool_data false serverState "Y" "blocks_file" "B").retVal = some false := by
  refine ⟨(unknown_slot_update_behavior serverState "X" "bogus" "v").1 (by decide), ?_⟩
  exact ((unknown_slot_update_behavior serverState "Y" "blocks_file" "B").2
    (by decide) (by decide)).1

/-- Context: the legacy variant sequence_cache.py does implement
mirror-first lookup with lazy warming — `get_sequence` returns a
memory-cache hit directly, and on a mirror miss writes a payload found in
the table back into the mirror. -/
theorem legacy_get_sequence_mirror_first (st : LegacyCacheState)
    (id : String) :
    (∀ d, assocLookup st.memory_cache id = some d → get_sequence st id = (some d, st)) ∧
    (assocLookup st.memory_cache id = none →
      ∀ d, assocLookup st.db_table id = some d →
        get_sequence st id =
          (some d, { st with memory_cache := assocSet st.memory_cache id d })) := by
  constructor
  · intro d hd
    simp [get_sequence, hd]
  · intro hmem d hd
    simp [get_sequence, hmem, hd]

/-- C7, counterexample.  `get_by_rnacentral_id` does not consult the mirror
and does not warm it.  First state: the reachable state left by an upsert
whose persistent write failed — the record sits in the mirror only, yet
`get` returns absent.  Second state: a cache constructed over a
pre-existing table row (a restart) — `get` finds the row but leaves the
mirror empty instead of repopulating it. -/
theorem get_ignores_mirror_cex :
    (get_by_rnacentral_id
       (add_sequence true (init_cache [] []) "X" sampleData).state "X").1 = none ∧
    (get_by_rnacentral_id (init_cache [("X", sampleRow)] []) "X").1 = some sampleRow ∧
    (get_by_rnacentral_id (init_cache [("X", sampleRow)] []) "X").2.memory_cache = [] := by
  decide

/-- C7, amended.  `get_by_rnacentral_id` reads the persistent table
directly: the result does not depend on the mirror at all, the state
(mirror included) is left unchanged, and the call returns absent — not an
error — exactly when no persistent row exists. -/
theorem get_persistent_only (st : CacheState) (id : String) :
    (get_by_rnacentral_id st id).2 = st ∧
    ((get_by_rnacentral_id st id).1 = none ↔ assocHas st.db_table id = false) ∧
    (∀ m, (get_by_rnacentral_id { st with memory_cache := m } id).1 =
      (get_by_rnacentral_id st id).1) := by
  refine ⟨rfl, ?_, fun m => rfl⟩
  exact assocLookup_eq_none_iff_not_has st.db_table id

/-- C8.  Structure-slot side effect and atomicity: on a stored id, a
structure annotation that parses updates, in the one committed state, both
the raw `trnascan_se_ss` slot and the base payload (the derived
`secondary_structure` and `trnascan_sequence` fields merged in), returns
True, and leaves the mirror alone; an annotation that fails to parse
changes nothing and returns False. -/
theorem structure_slot_side_effect (st : CacheState) (id data : String) :
    (∀ row parsed, assocLookup st.db_table id = some row →
       parse_trnascan_output data = some parsed →
       (update_tool_data false st id "trnascan_se_ss" data).retVal = some true ∧
       (update_tool_data false st id "trnascan_se_ss" data).raised = none ∧
       assocLookup (update_tool_data false st id "trnascan_se_ss" data).state.db_table id =
         some { row with
                sequence_data :=
                  dictSet (dictSet row.sequence_data
                      "secondary_structure" parsed.secondary_structure)
                    "trnascan_sequence" parsed.trnascan_sequence
                trnascan_se_ss := some data } ∧
       (update_tool_data false st id "trnascan_se_ss" data).state.memory_cache =
         st.memory_cache) ∧
    (parse_trnascan_output data = none →
       (update_tool_data false st id "trnascan_se_ss" data).retVal = some false ∧
       (update_tool_data false st id "trnascan_se_ss" data).state = st ∧
       (update_tool_data false st id "trnascan_se_ss" data).notifs = []) := by
  constructor
  · intro row parsed hrow hp
    simp [update_tool_data, allowed_tools, hp, hrow, assocLookup_assocUpdate_self]
  · intro hp
    simp [update_tool_data, allowed_tools, hp]

/-- C8, witness: on the stored record `X`, the well-formed annotation
updates slot and payload together and returns True; a malformed one
returns False and changes nothing. -/
theorem structure_slot_side_effect_witness :
    (update_tool_data false serverState "X" "trnascan_se_ss" "Seq: GG\nStr: ><").retVal =
      some true ∧
    assocLookup
      (update_tool_data false serverState "X" "trnascan_se_ss" "Seq: GG\nStr: ><").state.db_table
      "X" =
      some { sampleRow with
             sequence_data :=
               dictSet (dictSet sampleRow.sequence_data "secondary_structure" "><")
                 "trnascan_sequence" "GG"
             trnascan_se_ss := some "Seq: GG\nStr: ><" } ∧
    (update_tool_data false serverState "X" "trnascan_se_ss" "junk").retVal = some false := by
  have h := (structure_slot_side_effect serverState "X" "Seq: GG\nStr: ><").1 sampleRow
    (TrnascanParsed.mk "GG" "><") (by decide) (by decide)
  exact ⟨h.1, h.2.2.1, ((structure_slot_side_effect serverState "X" "junk").2 (by decide)).1⟩

/-- C10.  The Sprinzl parser is total: for a stored id, any string value
passed to the `sprinzl_pos` slot makes `update_tool_data` return True and
store the object whose `positions` field is the value with surrounding
whitespace stripped and every newline and carriage return removed; no
input is ever rejected for this slot, and other slots and the mirror are
untouched. -/
theorem sprinzl_total_update (st : CacheState) (id : String) (row : Row)
    (h : assocLookup st.db_table id = some row) (v : String) :
    (update_tool_data false st id "sprinzl_pos" v).retVal = some true ∧
    (update_tool_data false st id "sprinzl_pos" v).raised = none ∧
    assocLookup (update_tool_data false st id "sprinzl_pos" v).state.db_table id =
      some { row with sprinzl_pos := some (parse_sprinzl_output v) } ∧
    (update_tool_data false st id "sprinzl_pos" v).state.memory_cache = st.memory_cache := by
  have hhas : assocHas st.db_table id = true := assocHas_of_lookup_some h
  simp [update_tool_data, allowed_tools, hhas, h, assocLookup_assocUpdate_self]

/-- C10, witness: a messy multi-line value is accepted on the stored record
and stored cleaned. -/
theorem sprinzl_total_update_witness :
    (update_tool_data false serverState "X" "sprinzl_pos" " 1:a\n2:b\r ").retVal = some true ∧
    assocLookup
      (update_tool_data false serverState "X" "sprinzl_pos" " 1:a\n2:b\r ").state.db_table
      "X" =
      some { sampleRow with sprinzl_pos := some (SprinzlPositions.mk "1:a2:b") } := by
  have h := sprinzl_total_update serverState "X" sampleRow (by decide) " 1:a\n2:b\r "
  refine ⟨h.1, ?_⟩
  have hp : parse_sprinzl_output " 1:a\n2:b\r " = SprinzlPositions.mk "1:a2:b" := by decide
  simpa [hp] using h.2.2.1

/-- Helper: key-membership only depends on the key sequence. -/
theorem assocHas_eq_any_map {α : Type} (l : List (String × α)) (k : String) :
    assocHas l k = (l.map Prod.fst).any (fun x => x = k) := by
  induction l with
  | nil => rfl
  | cons p rest ih => simp [assocHas_cons, ih]

/-- Helper: inserting the same key into two lists with the same key
sequence yields the same key sequence again. -/
theorem map_fst_assocSet_congr {α β : Type} {l1 : List (String × α)}
    {l2 : List (String × β)} (h : l1.map Prod.fst = l2.map Prod.fst)
    (k : String) (v : α) (w : β) :
    (assocSet l1 k v).map Prod.fst = (assocSet l2 k w).map Prod.fst := by
  rw [map_fst_assocSet, map_fst_assocSet, assocHas_eq_any_map, assocHas_eq_any_map, h]

/-- Helper: a tool-slot update never touches the mirror and never changes
the key column of the persistent table (it only UPDATEs existing rows). -/
theorem update_tool_data_preserves_keys (b : Bool) (st : CacheState)
    (id tool v : String) :
    (update_tool_data b st id tool v).state.memory_cache = st.memory_cache ∧
    (update_tool_data b st id tool v).state.db_table.map Prod.fst =
      st.db_table.map Prod.fst := by
  by_cases ht : tool ∈ allowed_tools
  · cases b with
    | true => simp [update_tool_data, ht]
    | false =>
      have ht3 : tool = "trnascan_se_ss" ∨ tool = "sprinzl_pos" ∨ tool = "blocks_file" := by
        simpa [allowed_tools] using ht
      rcases ht3 with h | h | h
      · subst h
        cases hp : parse_trnascan_output v with
        | none => simp [update_tool_data, allowed_tools, hp]
        | some parsed =>
          cases hl : assocLookup st.db_table id with
          | none => simp [update_tool_data, allowed_tools, hp, hl]
          | some r =>
            simp [update_tool_data, allowed_tools, hp, hl, map_fst_assocUpdate]
      · subst h
        simp [update_tool_data, allowed_tools, map_fst_assocUpdate]
      · subst h
        simp [update_tool_data, allowed_tools, map_fst_assocUpdate]
  · simp [update_tool_data, ht]

/-- Helper: each completed operation preserves agreement of the key
sequences of mirror and persistent table. -/
theorem apply_op_preserves_keys (st : CacheState) (op : CacheOp)
    (h : st.memory_cache.map Prod.fst = st.db_table.map Prod.fst) :
    (apply_op st op).memory_cache.map Prod.fst =
      (apply_op st op).db_table.map Prod.fst := by
  cases op with
  | upsert id data => exact map_fst_assocSet_congr h id data _
  | updateSlot id tool v =>
    have h2 := update_tool_data_preserves_keys false st id tool v
    show (update_tool_data false st id tool v).state.memory_cache.map Prod.fst =
      (update_tool_data false st id tool v).state.db_table.map Prod.fst
    rw [h2.1, h2.2, h]
  | clearAll =>
    cases hc : st.callback_set <;> simp [apply_op, clear_op, hc]

/-- Helper: key-sequence agreement is preserved by any completed
operation sequence. -/
theorem apply_ops_preserves_keys (ops : List CacheOp) (st : CacheState)
    (h : st.memory_cache.map Prod.fst = st.db_table.map Prod.fst) :
    (apply_ops ops st).memory_cache.map Prod.fst =
      (apply_ops ops st).db_table.map Prod.fst := by
  induction ops generalizing st with
  | nil => exact h
  | cons op rest ih => exact ih (apply_op st op) (apply_op_preserves_keys st op h)

/-- C9, counterexample.  Construction over a pre-existing persistent table
(the file survives a restart; `_init_db` uses CREATE TABLE IF NOT EXISTS
and nothing loads the rows into the mirror) starts the mirror empty while
the table is not, and the disagreement persists across further
operations: after one upsert the counts are 1 versus 2. -/
theorem size_disagreement_restart_cex :
    (get_cache_size (apply_ops [CacheOp.upsert "B" sampleData]
        (init_cache [("X", sampleRow)] []))).memory_entries = 1 ∧
    (get_cache_size (apply_ops [CacheOp.upsert "B" sampleData]
        (init_cache [("X", sampleRow)] []))).persistent_entries = 2 ∧
    ¬ (get_cache_size (apply_ops [CacheOp.upsert "B" sampleData]
          (init_cache [("X", sampleRow)] []))).memory_entries =
        (get_cache_size (apply_ops [CacheOp.upsert "B" sampleData]
            (init_cache [("X", sampleRow)] []))).persistent_entries := by
  decide

/-- C9, amended.  When the cache is constructed over an empty persistent
table, then after every sequence of completed upserts, tool-slot updates
and clears, `get_cache_size` reports equal memory and persistent counts
(the key sequences of mirror and table agree throughout). -/
theorem size_agreement_from_empty
    (mapping : List (String × (List String × String))) (ops : List CacheOp) :
    (get_cache_size (apply_ops ops (init_cache [] mapping))).memory_entries =
      (get_cache_size (apply_ops ops (init_cache [] mapping))).persistent_entries := by
  have h := apply_ops_preserves_keys ops (init_cache [] mapping) rfl
  have h2 := congrArg List.length h
  simpa [get_cache_size] using h2

end Chatbot2
